import Mathlib

/-!
Verification of the DeX-Ray analytics pipeline (fetch_data.py, analyzer.py,
visualizer.py) against its design specification.

The pipeline is shallowly embedded: pandas DataFrames become an explicit
`DataFrame` structure (column names, integer index, row-major cells), JSON
payloads become the inductive `JVal`, and numeric cells are exact rationals
(`ℚ`).  Python's in-place column assignment in `clean_numeric` is modelled by
noting that the function returns the very frame it mutated, so the caller's
table after the call and the returned table are one and the same value, which
is what the embedded `clean_numeric` computes.  Fallible operations return
`Except String`, the error string standing for the raised exception's message.
-/

namespace DexRay

/-- JSON-like values as parsed from the HTTP API body. -/
inductive JVal where
  | jNull : JVal
  | jStr : String → JVal
  | jNum : ℚ → JVal
  | jArr : List JVal → JVal
  | jObj : List (String × JVal) → JVal
deriving Repr

/-- A cell of a pandas DataFrame as used by this pipeline: a string, an exact
numeric value, or the missing-value marker (Python `None` / `NaN`; the claims
never distinguish the two, so one constructor stands for both). -/
inductive Val where
  | vStr : String → Val
  | vNum : ℚ → Val
  | vNone : Val
deriving Repr, DecidableEq

/-- A pandas DataFrame: column labels, the integer index, and the rows
(row-major; each row is aligned positionally with `columns`). -/
structure DataFrame where
  columns : List String
  index : List Nat
  rows : List (List Val)
deriving Repr, DecidableEq

/-- Well-formedness of a frame: the index labels the rows one-to-one and every
row has one cell per column.  Every frame pandas actually constructs
satisfies this. -/
def WF (df : DataFrame) : Bool :=
  df.index.length == df.rows.length &&
    df.rows.all (fun r => r.length == df.columns.length)

/-! ### Python numeric-string parsing

`float(s)` (used by `_f`) and `pd.to_numeric` (used by `clean_numeric`) are
modelled by one exact decimal grammar: optional sign, decimal mantissa with an
optional fractional part, optional decimal exponent.  Non-finite literals
(`nan`, `inf`), underscores and surrounding whitespace are outside the model;
no claim exercises them. -/

/-- Value of a digit string read in base 10. -/
def digitsToNat (ds : List Char) : Nat :=
  ds.foldl (fun a c => a * 10 + (c.toNat - 48)) 0

/-- Parse an unsigned mantissa: `digits`, `digits.digits`, `digits.` or
`.digits`. -/
def parseMantissa (cs : List Char) : Option ℚ :=
  match cs.span Char.isDigit with
  | (ip, rest) =>
    match rest with
    | [] => if ip.isEmpty then none else some (digitsToNat ip : ℚ)
    | '.' :: fp =>
        if fp.all Char.isDigit && !(ip.isEmpty && fp.isEmpty) then
          some ((digitsToNat ip : ℚ) + (digitsToNat fp : ℚ) / ((10 : ℚ) ^ fp.length))
        else none
    | _ => none

/-- Parse a signed decimal exponent part (the characters after `e`/`E`). -/
def parseExponent (cs : List Char) : Option Int :=
  match cs with
  | '+' :: t => if !t.isEmpty && t.all Char.isDigit then some (digitsToNat t : Int) else none
  | '-' :: t => if !t.isEmpty && t.all Char.isDigit then some (-(digitsToNat t : Int)) else none
  | t => if !t.isEmpty && t.all Char.isDigit then some (digitsToNat t : Int) else none

/-- Unsigned part of `float(s)`: mantissa with optional exponent. -/
def pyFloatCore (cs : List Char) : Option ℚ :=
  match cs.findIdx? (fun c => c == 'e' || c == 'E') with
  | none => parseMantissa cs
  | some i =>
    match parseMantissa (cs.take i), parseExponent (cs.drop (i + 1)) with
    | some m, some e => some (m * (10 : ℚ) ^ e)
    | _, _ => none

/-- Python `float(s)` on a string, with exact rational semantics. -/
def pyFloatOfString (s : String) : Option ℚ :=
  match s.toList with
  | '+' :: t => pyFloatCore t
  | '-' :: t => (pyFloatCore t).map (fun q => -q)
  | t => pyFloatCore t

/-- Python `float(value)` on a JSON value: numbers convert to themselves,
strings are parsed, and everything else (`null`, arrays, objects) raises
`TypeError` — modelled as `none`. -/
def pyFloatJ : JVal → Option ℚ
  | .jNum q => some q
  | .jStr s => pyFloatOfString s
  | _ => none

/-- Conversion outcome of `float` wrapped as a cell: success is a number,
failure the missing marker. -/
def floatVal (w : JVal) : Val :=
  match pyFloatJ w with
  | some q => .vNum q
  | none => .vNone

/-- `_f` from fetch_data.py: safe float conversion.  `None` input returns
`None` directly; a failing `float()` call (`TypeError`/`ValueError`) is
caught and also yields `None`. -/
def _f : Option JVal → Val
  | none => .vNone
  | some w => floatVal w

/-- Python `str()` as used inside the f-string `f"{token_a}/{token_b}"`:
an absent attribute (`dict.get` returned `None`) and a JSON `null` both print
as the literal text `None`.  Nested containers and numbers are not exercised
by any claim; numbers print via their rational rendering. -/
def pyStr : Option JVal → String
  | none => "None"
  | some .jNull => "None"
  | some (.jStr s) => s
  | some (.jNum q) => toString q
  | some _ => "None"

/-- A raw value stored directly into a cell (`pool_id`, `dex_name`,
`network`): strings and numbers keep their value, absence and `null` become
the missing marker. -/
def valOf : Option JVal → Val
  | some (.jStr s) => .vStr s
  | some (.jNum q) => .vNum q
  | _ => .vNone

/-! ### fetch_data.pools_to_dataframe -/

/-- `item.get(k)` on a raw pool object. -/
def itemGet (item : JVal) (k : String) : Option JVal :=
  match item with
  | .jObj fs => fs.lookup k
  | _ => none

/-- `item.get("attributes", {})`: the nested attributes map, or empty when
absent. -/
def attrsOf (item : JVal) : List (String × JVal) :=
  match itemGet item "attributes" with
  | some (.jObj afs) => afs
  | _ => []

/-- The record built for one pool by `pools_to_dataframe` (fetch_data.py
lines 108-125), key for key and in source order.  Note the attribute keys the
source reads: `token_a_symbol`, `token_b_symbol`, `reserve_usd`,
`price_percent_change_24h`. -/
def poolRecord (item : JVal) : List (String × Val) :=
  let attrs := attrsOf item
  [ ("pool_id", valOf (itemGet item "id")),
    ("pair", .vStr (pyStr (attrs.lookup "token_a_symbol") ++ "/" ++
                    pyStr (attrs.lookup "token_b_symbol"))),
    ("dex_name", valOf (attrs.lookup "dex_name")),
    ("network", valOf (attrs.lookup "network")),
    ("price_usd", _f (attrs.lookup "price_usd")),
    ("volume_usd_24h", _f (attrs.lookup "volume_usd_24h")),
    ("volume_usd_7d", _f (attrs.lookup "volume_usd_7d")),
    ("tvl_usd", _f (attrs.lookup "reserve_usd")),
    ("price_change_24h", _f (attrs.lookup "price_percent_change_24h")) ]

/-- Append a key if it is not yet present (order of first appearance). -/
def addKey (acc : List String) (k : String) : List String :=
  if acc.contains k then acc else acc ++ [k]

/-- Column set of `pd.DataFrame(records)`: union of the records' keys in
order of first appearance. -/
def unionKeys (records : List (List (String × Val))) : List String :=
  records.foldl (fun acc r => (r.map Prod.fst).foldl addKey acc) []

/-- `pd.DataFrame(records)` for a list of key-value records: keys become the
columns, a record's missing keys become missing cells, the index is the
fresh range.  In particular `pd.DataFrame([])` is a frame with no rows and
no columns. -/
def mkDataFrame (records : List (List (String × Val))) : DataFrame :=
  let cols := unionKeys records
  { columns := cols
    index := List.range records.length
    rows := records.map (fun r => cols.map (fun c => (r.lookup c).getD .vNone)) }

/-- `pools_to_dataframe` from fetch_data.py. -/
def pools_to_dataframe (pools : List JVal) : DataFrame :=
  mkDataFrame (pools.map poolRecord)

/-- The curated column set emitted by `pools_to_dataframe` for a non-empty
payload (the record keys, in source order). -/
def curatedColumns : List String :=
  ["pool_id", "pair", "dex_name", "network", "price_usd",
   "volume_usd_24h", "volume_usd_7d", "tvl_usd", "price_change_24h"]

/-- The numeric columns of the curated set (those built through `_f`). -/
def numericCuratedColumns : List String :=
  ["price_usd", "volume_usd_24h", "volume_usd_7d", "tvl_usd", "price_change_24h"]

/-! ### fetch_data transport (`_request`, `get_pools`)

The network is modelled as a trace of pending HTTP outcomes; each performed
GET consumes exactly one outcome, so the returned remainder of the trace
records how many requests a call made. -/

/-- Outcome of one HTTP GET: a 2xx response with a parsed JSON body, or a
`requests.RequestException` (transport failure, or the non-2xx status raised
by `raise_for_status`) with its message. -/
inductive HttpOutcome where
  | success : JVal → HttpOutcome
  | failure : String → HttpOutcome
deriving Repr

/-- `_request` from fetch_data.py: performs one GET.  A `RequestException`
is re-raised as `RuntimeError("API request failed: ...")` wrapping the
cause.  The empty-trace case is unreachable (a call always consumes one
outcome) and returns a bare error. -/
def _request (net : List HttpOutcome) : Except String JVal × List HttpOutcome :=
  match net with
  | [] => (.error "API request failed: ", [])
  | .success j :: rest => (.ok j, rest)
  | .failure cause :: rest => (.error ("API request failed: " ++ cause), rest)

/-- `data.get("data", [])` on the parsed body.  A non-object body would
raise `AttributeError` in Python and is not exercised by the claims. -/
def jsonGetData (j : JVal) : JVal :=
  match j with
  | .jObj fs => (fs.lookup "data").getD (.jArr [])
  | _ => .jArr []

/-- `get_pools` from fetch_data.py: builds the paginated pools endpoint,
performs one GET through `_request`, and returns the body's `data` field (or
an empty array when absent).  `network`, `limit` and `page` only shape the
request, which the claims do not inspect. -/
def get_pools (network : String) (limit : Int) (page : Int)
    (net : List HttpOutcome) : Except String JVal × List HttpOutcome :=
  let _ := ("networks/" ++ network ++ "/pools", page, limit)
  match _request net with
  | (.ok j, rest) => (.ok (jsonGetData j), rest)
  | (.error e, rest) => (.error e, rest)

/-! ### analyzer.py -/

/-- `pd.to_numeric(·, errors="coerce")` on one cell: numbers stay, numeric
strings are parsed, anything non-convertible becomes the missing marker. -/
def toNumericCell : Val → Val
  | .vNum q => .vNum q
  | .vStr s =>
    match pyFloatOfString s with
    | some q => .vNum q
    | none => .vNone
  | .vNone => .vNone

/-- Replace, cellwise, the cells of one row whose column label equals `c`.
`names` is the column list; positions beyond it are untouched. -/
def applyAtCols (c : String) (f : Val → Val) : List String → List Val → List Val
  | _, [] => []
  | [], vs => vs
  | n :: ns, v :: vs => (if n = c then f v else v) :: applyAtCols c f ns vs

/-- `df[c] = f(df[c])` on a whole frame. -/
def setCol (df : DataFrame) (c : String) (f : Val → Val) : DataFrame :=
  { df with rows := df.rows.map (applyAtCols c f df.columns) }

/-- `clean_numeric` from analyzer.py.  For each requested column present in
the frame it assigns the coerced column back into the frame.  The Python
function performs this assignment on the caller's own object and then
returns it, so this value is simultaneously the returned frame and the
state of the caller's argument after the call. -/
def clean_numeric (df : DataFrame) (cols : List String) : DataFrame :=
  cols.foldl
    (fun d c => if d.columns.contains c then setCol d c toNumericCell else d) df

/-- Descending key order used by `sort_values(·, ascending=False)`: larger
numbers first, missing values last (pandas `na_position="last"`).  Cells of
other kinds are ordered only so far as the claims need: all strings tie and
sit between numbers and missing values; a genuinely mixed object column
would make pandas raise `TypeError`, which is outside the PoolTable
invariant; every sorting theorem below therefore carries the
numeric-or-missing hypothesis on the key column. -/
def volGEb : Val → Val → Bool
  | .vNum a, .vNum b => decide (b ≤ a)
  | .vNum _, _ => true
  | .vStr _, .vNum _ => false
  | .vStr _, .vStr _ => true
  | .vStr _, .vNone => true
  | .vNone, .vNone => true
  | .vNone, _ => false

/-- Index of a column label in the column list (the length when absent). -/
def colIdx (cols : List String) (c : String) : Nat :=
  cols.findIdx (fun n => n == c)

/-- The cell of row `r` under column `c` (missing when the column or the
cell is absent). -/
def cellAt (cols : List String) (c : String) (r : List Val) : Val :=
  r.getD (colIdx cols c) .vNone

/-- Row order induced by the sort key of column `c` (rows are carried with
their index labels, as pandas does while sorting). -/
def rowGE (cols : List String) (c : String) (p q : Nat × List Val) : Prop :=
  volGEb (cellAt cols c p.2) (cellAt cols c q.2) = true

instance (cols : List String) (c : String) : DecidableRel (rowGE cols c) :=
  fun _ _ => instDecidableEqBool _ _

/-- `df.sort_values(c, ascending=False)`: sorts the index/row pairs by the
descending key order. -/
def sort_values_desc (df : DataFrame) (c : String) : DataFrame :=
  let pairs := List.insertionSort (rowGE df.columns c) (df.index.zip df.rows)
  { columns := df.columns
    index := pairs.map Prod.fst
    rows := pairs.map Prod.snd }

/-- `df.head(n)` for a non-negative count. -/
def headDF (df : DataFrame) (n : Nat) : DataFrame :=
  { columns := df.columns, index := df.index.take n, rows := df.rows.take n }

/-- `df.reset_index(drop=True)`: a fresh sequential index. -/
def reset_index (df : DataFrame) : DataFrame :=
  { df with index := List.range df.rows.length }

/-- `top_pools_by_volume` from analyzer.py.  The missing-column guard runs
first; the error value stands for the raised `KeyError` (the spec's
`SchemaError` kind). -/
def top_pools_by_volume (df : DataFrame) (n : Nat) : Except String DataFrame :=
  if df.columns.contains "volume_usd_24h" then
    .ok (reset_index (headDF (sort_values_desc df "volume_usd_24h") n))
  else
    .error "DataFrame must contain \x27volume_usd_24h\x27 column"

/-- The four columns `liquidity_vs_volume` requires. -/
def requiredBubbleCols : List String :=
  ["pool_name", "tvl_usd", "volume_usd_24h", "price_change_pct_24h"]

/-- The required columns absent from the frame, in required order. -/
def missingColumns (df : DataFrame) : List String :=
  requiredBubbleCols.filter (fun c => !df.columns.contains c)

/-- `df[cs].copy()`: projection onto the listed columns, index kept. -/
def selectCols (df : DataFrame) (cs : List String) : DataFrame :=
  { columns := cs
    index := df.index
    rows := df.rows.map (fun r => cs.map (fun c => cellAt df.columns c r)) }

/-- `liquidity_vs_volume` from analyzer.py: checks the four required columns,
raising `KeyError` (the spec's `SchemaError`) naming every missing one, else
projects onto exactly those columns. -/
def liquidity_vs_volume (df : DataFrame) : Except String DataFrame :=
  if missingColumns df = [] then
    .ok (selectCols df requiredBubbleCols)
  else
    .error ("Missing columns: " ++ String.intercalate ", " (missingColumns df))

/-- Sample variance of a list (denominator `n - 1`, pandas `ddof=1`).  The
source's `.std()` is the square root of this quantity; tracking the exact
square keeps the embedding in ℚ, and the theorems state the square-root
bridge explicitly where a claim mentions the deviation itself. -/
def sampleVar (xs : List ℚ) : ℚ :=
  let n : ℚ := xs.length
  let m : ℚ := xs.sum / n
  ((xs.map (fun x => (x - m) ^ 2)).sum) / (n - 1)

/-- The trailing window of size `w` ending at position `i`. -/
def windowAt (xs : List ℚ) (w i : Nat) : List ℚ :=
  (xs.take (i + 1)).drop (i + 1 - w)

/-- `volatility` from analyzer.py: empty in, empty out; otherwise
`rolling(window=w).std()`, which is missing at the first `w - 1` positions
(incomplete window) and everywhere when `w ≤ 1` (a single observation has
no sample deviation under `ddof=1`); a defined position holds the sample
deviation of its trailing window, recorded here as its exact square. -/
def volatility (xs : List ℚ) (w : Nat) : List (Option ℚ) :=
  if xs.isEmpty then []
  else
    (List.range xs.length).map (fun i =>
      if i + 1 < w || w ≤ 1 then none else some (sampleVar (windowAt xs w i)))

/-! ### visualizer.py -/

/-- The parts of a Plotly bar figure the claims observe. -/
structure Figure where
  x : List Val
  y : List Val
  text : List Val
  title : String
  xaxisTickangle : Int
  xaxisTitle : String
deriving Repr, DecidableEq

/-- The values of one column, row by row. -/
def colValues (df : DataFrame) (c : String) : List Val :=
  df.rows.map (cellAt df.columns c)

/-- `bar_top_volume` from visualizer.py: sorts by descending 24-hour volume
(`sort_values` raises `KeyError` first when that column is absent), keeps
the head, and builds the bar figure; `px.bar` raises when the `x`/`text`
columns are absent. -/
def bar_top_volume (df : DataFrame) (n : Nat) : Except String Figure :=
  if df.columns.contains "volume_usd_24h" then
    let top := headDF (sort_values_desc df "volume_usd_24h") n
    if df.columns.contains "pair" && df.columns.contains "tvl_usd" then
      .ok { x := colValues top "pair"
            y := colValues top "volume_usd_24h"
            text := colValues top "tvl_usd"
            title := "Top " ++ toString n ++ " Pools by 24‑Hour Volume"
            xaxisTickangle := -35
            xaxisTitle := "Pool (Token0‑Token1)" }
    else
      .error "missing chart columns"
  else
    .error "volume_usd_24h"

/-! ### Auxiliary definitions for the verification -/

/-- The transformation `clean_numeric` applies to the cell of a column
whose label is `name?` (the label at the cell's position, if any). -/
def cleanCellAt (cols : List String) (name? : Option String) (v : Val) : Val :=
  match name? with
  | some c => if cols.contains c then toNumericCell v else v
  | none => v

/-- The raw record of the concrete scenario (also the fixture the repo's own
test suite feeds to `pools_to_dataframe`). -/
def samplePool : JVal :=
  .jObj [("attributes", .jObj [
      ("token0_symbol", .jStr "AAA"),
      ("token1_symbol", .jStr "BBB"),
      ("reserve_in_usd", .jStr "100000"),
      ("volume_usd_24h", .jStr "50000"),
      ("price_usd", .jStr "1.5"),
      ("price_change_percentage_24h", .jStr "2.3")])]

/-- A frame carrying only the two always-present required columns. -/
def dfPartial : DataFrame :=
  { columns := ["tvl_usd", "volume_usd_24h"]
    index := [0]
    rows := [[.vNum 7, .vNum 9]] }

/-- A frame carrying all four required columns. -/
def dfFull : DataFrame :=
  { columns := requiredBubbleCols
    index := [0]
    rows := [[.vStr "p", .vNum 1, .vNum 2, .vNum 3]] }

/-- A two-row frame with a volume column, for witnesses. -/
def dfVol : DataFrame :=
  { columns := ["volume_usd_24h"]
    index := [0, 1]
    rows := [[.vNum 1], [.vNum 5]] }

/-- A frame lacking the volume column, for witnesses. -/
def dfNoVol : DataFrame :=
  { columns := ["pair"]
    index := [0]
    rows := [[.vStr "x"]] }

/-- A one-row frame with the three bar-chart columns, for witnesses. -/
def dfBar : DataFrame :=
  { columns := ["pair", "volume_usd_24h", "tvl_usd"]
    index := [0]
    rows := [[.vStr "a", .vNum 2, .vNum 3]] }

/-- A frame holding a numeric string, whose coercion changes the cell. -/
def dfStrNum : DataFrame :=
  { columns := ["tvl_usd"]
    index := [0]
    rows := [[.vStr "100"]] }

/-- What a successful `top_pools_by_volume` call returns: the rows of the
input reordered non-increasingly by the 24-hour volume key, truncated to
`n`, under the same columns and a fresh sequential index. -/
def topOkSpec (df : DataFrame) (n : Nat) : Prop :=
  ∃ out, top_pools_by_volume df n = .ok out ∧
    out.columns = df.columns ∧
    out.rows.length = min n df.rows.length ∧
    out.index = List.range (min n df.rows.length) ∧
    ∃ sortedRows, List.Perm sortedRows df.rows ∧ out.rows = sortedRows.take n ∧
      sortedRows.Pairwise (fun r1 r2 =>
        volGEb (cellAt df.columns "volume_usd_24h" r1)
          (cellAt df.columns "volume_usd_24h" r2) = true)

/-- What a successful `bar_top_volume` call returns when `n` exceeds the row
count: a figure whose x, y and text encodings are built from every row of
the table. -/
def barOkSpec (df : DataFrame) (n : Nat) : Prop :=
  ∃ fig, bar_top_volume df n = .ok fig ∧
    fig.x.length = df.rows.length ∧
    fig.y.length = df.rows.length ∧
    fig.text.length = df.rows.length ∧
    ∃ sortedRows, List.Perm sortedRows df.rows ∧
      fig.x = sortedRows.map (cellAt df.columns "pair") ∧
      fig.y = sortedRows.map (cellAt df.columns "volume_usd_24h") ∧
      fig.text = sortedRows.map (cellAt df.columns "tvl_usd")

instance (cols : List String) (c : String) :
    IsTotal (Nat × List Val) (rowGE cols c) :=
  ⟨fun p q => by
    unfold rowGE
    cases cellAt cols c p.2 <;> cases cellAt cols c q.2 <;>
      simp [volGEb] <;> exact le_total _ _⟩

instance (cols : List String) (c : String) :
    IsTrans (Nat × List Val) (rowGE cols c) :=
  ⟨fun p q r => by
    unfold rowGE
    generalize cellAt cols c p.2 = x
    generalize cellAt cols c q.2 = y
    generalize cellAt cols c r.2 = z
    cases x <;> cases y <;> cases z <;> simp [volGEb] <;>
      exact fun h1 h2 => le_trans h2 h1⟩

/-! ### Supporting lemmas -/

/-- The safe cast can only produce a number or the missing marker. -/
theorem floatVal_num_or_none (w : JVal) :
    floatVal w = .vNone ∨ ∃ q, floatVal w = .vNum q := by
  cases h : pyFloatJ w <;> simp [floatVal, h]

/-- `_f` never raises: its value is a number or the missing marker. -/
theorem _f_num_or_none (v : Option JVal) :
    _f v = .vNone ∨ ∃ q, _f v = .vNum q := by
  cases v with
  | none => exact .inl rfl
  | some w => exact floatVal_num_or_none w

/-- The keys of every pool record are exactly the curated columns. -/
theorem poolRecord_keys (item : JVal) :
    (poolRecord item).map Prod.fst = curatedColumns := rfl

set_option maxHeartbeats 1600000 in
/-- Folding the curated keys into an accumulator that already holds them
changes nothing. -/
theorem foldl_addKey_curated :
    curatedColumns.foldl addKey curatedColumns = curatedColumns := by
  simp [curatedColumns, addKey, List.foldl_cons]

set_option maxHeartbeats 1600000 in
/-- Folding the curated keys into the empty accumulator yields them all. -/
theorem foldl_addKey_nil :
    curatedColumns.foldl addKey [] = curatedColumns := by
  simp [curatedColumns, addKey, List.foldl_cons]

theorem unionKeys_aux (rs : List JVal) :
    (rs.map poolRecord).foldl
        (fun acc r => (r.map Prod.fst).foldl addKey acc) curatedColumns =
      curatedColumns := by
  induction rs with
  | nil => rfl
  | cons x xs ih =>
    simpa [poolRecord_keys, foldl_addKey_curated] using ih

set_option maxHeartbeats 1600000 in
/-- Column set of the normalizer's output: empty for the empty payload,
the curated set otherwise. -/
theorem pools_to_dataframe_columns (pools : List JVal) :
    (pools_to_dataframe pools).columns =
      if pools.isEmpty then [] else curatedColumns := by
  cases pools with
  | nil => rfl
  | cons p ps =>
    show unionKeys (poolRecord p :: ps.map poolRecord) = curatedColumns
    unfold unionKeys
    rw [List.foldl_cons, poolRecord_keys, foldl_addKey_nil]
    exact unionKeys_aux ps

/-- Row count of the normalizer's output equals the payload length. -/
theorem pools_to_dataframe_length (pools : List JVal) :
    (pools_to_dataframe pools).rows.length = pools.length := by
  simp [pools_to_dataframe, mkDataFrame]

/-- The index of the normalizer's output is the fresh range. -/
theorem pools_to_dataframe_index (pools : List JVal) :
    (pools_to_dataframe pools).index = List.range pools.length := by
  simp [pools_to_dataframe, mkDataFrame]

/-- The key order is total. -/
theorem volGEb_total (a b : Val) : volGEb a b = true ∨ volGEb b a = true := by
  cases a <;> cases b <;> simp [volGEb] <;> exact le_total _ _

/-- The key order is transitive. -/
theorem volGEb_trans {a b c : Val} (h1 : volGEb a b = true)
    (h2 : volGEb b c = true) : volGEb a c = true := by
  cases a <;> cases b <;> cases c <;>
    simp_all [volGEb] <;> exact le_trans h2 h1

set_option maxHeartbeats 1600000 in
/-- The row built for one pool, cell by cell, in curated column order. -/
theorem poolRow_eq (item : JVal) :
    curatedColumns.map (fun c => ((poolRecord item).lookup c).getD .vNone) =
      [valOf (itemGet item "id"),
       .vStr (pyStr ((attrsOf item).lookup "token_a_symbol") ++ "/" ++
              pyStr ((attrsOf item).lookup "token_b_symbol")),
       valOf ((attrsOf item).lookup "dex_name"),
       valOf ((attrsOf item).lookup "network"),
       _f ((attrsOf item).lookup "price_usd"),
       _f ((attrsOf item).lookup "volume_usd_24h"),
       _f ((attrsOf item).lookup "volume_usd_7d"),
       _f ((attrsOf item).lookup "reserve_usd"),
       _f ((attrsOf item).lookup "price_percent_change_24h")] := rfl

set_option maxHeartbeats 1600000 in
/-- For a non-empty payload the rows are the per-item curated projections. -/
theorem pools_to_dataframe_rows_cons (p : JVal) (ps : List JVal) :
    (pools_to_dataframe (p :: ps)).rows =
      (p :: ps).map (fun item =>
        curatedColumns.map (fun c => ((poolRecord item).lookup c).getD .vNone)) := by
  have hc : unionKeys ((p :: ps).map poolRecord) = curatedColumns := by
    simpa using pools_to_dataframe_columns (p :: ps)
  show ((p :: ps).map poolRecord).map
      (fun r => (unionKeys ((p :: ps).map poolRecord)).map
        (fun c => (r.lookup c).getD .vNone)) = _
  rw [hc, List.map_map]
  rfl

set_option maxHeartbeats 1600000 in
/-- Every numeric curated cell of a pool row is a `_f` conversion result. -/
theorem numericCell_eq (item : JVal) (c : String)
    (hc : c ∈ numericCuratedColumns) :
    ∃ v, cellAt curatedColumns c
        (curatedColumns.map (fun c => ((poolRecord item).lookup c).getD .vNone)) =
      _f v := by
  fin_cases hc <;> exact ⟨_, rfl⟩

/-! ### Claims -/

set_option maxHeartbeats 1600000 in
/-- C1: on the concrete scenario record, `pools_to_dataframe` actually
returns `pair = "None/None"` and a missing `tvl_usd` — not `"AAA/BBB"` and
`100000.0` — because the source reads the attribute keys `token_a_symbol`,
`token_b_symbol` and `reserve_usd`, none of which the record (or the repo's
own test fixture, or the upstream API) provides; only `volume_usd_24h`
matches and becomes `50000.0`. -/
theorem C1_key_mismatch_eval :
    cellAt (pools_to_dataframe [samplePool]).columns "pair"
        ((pools_to_dataframe [samplePool]).rows.getD 0 []) = .vStr "None/None" ∧
    cellAt (pools_to_dataframe [samplePool]).columns "tvl_usd"
        ((pools_to_dataframe [samplePool]).rows.getD 0 []) = .vNone ∧
    cellAt (pools_to_dataframe [samplePool]).columns "volume_usd_24h"
        ((pools_to_dataframe [samplePool]).rows.getD 0 []) = .vNum 50000 ∧
    ¬ (cellAt (pools_to_dataframe [samplePool]).columns "pair"
          ((pools_to_dataframe [samplePool]).rows.getD 0 []) = .vStr "AAA/BBB" ∧
       cellAt (pools_to_dataframe [samplePool]).columns "tvl_usd"
          ((pools_to_dataframe [samplePool]).rows.getD 0 []) = .vNum 100000) := by
  refine ⟨rfl, rfl, rfl, ?_⟩
  decide

set_option maxHeartbeats 1600000 in
/-- C2, counterexample: on the empty payload the produced table has zero
rows but also an empty column set, not the fixed curated set the claim
requires. -/
theorem C2_empty_payload_counterexample :
    (pools_to_dataframe []).rows.length = 0 ∧
    (pools_to_dataframe []).columns = [] ∧
    (pools_to_dataframe []).columns ≠ curatedColumns := by
  refine ⟨rfl, rfl, ?_⟩
  decide

/-- C2, amended: a payload of `N` records yields exactly `N` rows with a
fresh sequential index; for `N ≥ 1` the column set is the fixed curated set
whatever optional attributes the records carry, while the empty payload
yields a table with no columns; every numeric curated cell is a safe-cast
result, i.e. a number or the missing marker — never an exception. -/
theorem C2_shape_and_columns (pools : List JVal) :
    (pools_to_dataframe pools).rows.length = pools.length ∧
    (pools_to_dataframe pools).index = List.range pools.length ∧
    (pools ≠ [] → (pools_to_dataframe pools).columns = curatedColumns) ∧
    (pools = [] → (pools_to_dataframe pools).columns = []) ∧
    (∀ row ∈ (pools_to_dataframe pools).rows, ∀ c ∈ numericCuratedColumns,
       cellAt (pools_to_dataframe pools).columns c row = .vNone ∨
       ∃ q, cellAt (pools_to_dataframe pools).columns c row = .vNum q) := by
  refine ⟨pools_to_dataframe_length pools, pools_to_dataframe_index pools,
    ?_, ?_, ?_⟩
  · intro h
    have := pools_to_dataframe_columns pools
    cases pools with
    | nil => exact absurd rfl h
    | cons p ps => simpa using this
  · intro h
    subst h
    rfl
  · intro row hrow c hc
    cases pools with
    | nil => simp [pools_to_dataframe, mkDataFrame] at hrow
    | cons p ps =>
      rw [pools_to_dataframe_rows_cons] at hrow
      obtain ⟨item, _, rfl⟩ := List.mem_map.mp hrow
      have hcols : (pools_to_dataframe (p :: ps)).columns = curatedColumns := by
        simpa using pools_to_dataframe_columns (p :: ps)
      rw [hcols]
      obtain ⟨v, hv⟩ := numericCell_eq item c hc
      rw [hv]
      exact _f_num_or_none v

/-- C2, witness: the amended statement applied to the one-record payload. -/
theorem C2_shape_and_columns_witness :
    (pools_to_dataframe [samplePool]).rows.length = 1 ∧
    (pools_to_dataframe [samplePool]).columns = curatedColumns :=
  ⟨(C2_shape_and_columns [samplePool]).1,
   (C2_shape_and_columns [samplePool]).2.2.1 (List.cons_ne_nil _ _)⟩

/-- C4: when any of the four required columns is absent,
`liquidity_vs_volume` raises the schema error whose message lists exactly
the missing required columns (a column is listed iff it is required and
absent); when all four are present it returns precisely those four
columns. -/
theorem C4_liquidity_vs_volume_schema (df : DataFrame) :
    (missingColumns df ≠ [] →
       liquidity_vs_volume df =
         .error ("Missing columns: " ++
           String.intercalate ", " (missingColumns df))) ∧
    (∀ c, c ∈ missingColumns df ↔
       c ∈ requiredBubbleCols ∧ df.columns.contains c = false) ∧
    (missingColumns df = [] →
       ∃ out, liquidity_vs_volume df = .ok out ∧
         out.columns = requiredBubbleCols) := by
  refine ⟨fun h => ?_, fun c => ?_, fun h => ?_⟩
  · simp [liquidity_vs_volume, h]
  · simp [missingColumns, List.mem_filter]
  · exact ⟨selectCols df requiredBubbleCols, by simp [liquidity_vs_volume, h], rfl⟩

/-- C4, witness: both branches at concrete frames. -/
theorem C4_liquidity_vs_volume_schema_witness :
    (liquidity_vs_volume dfPartial =
       .error ("Missing columns: " ++
         String.intercalate ", " (missingColumns dfPartial))) ∧
    (∃ out, liquidity_vs_volume dfFull = .ok out ∧
       out.columns = requiredBubbleCols) :=
  ⟨(C4_liquidity_vs_volume_schema dfPartial).1 (by decide),
   (C4_liquidity_vs_volume_schema dfFull).2.2 (by decide)⟩

set_option maxHeartbeats 1600000 in
/-- C10: the normalizer labels the pool `pair` and the price change
`price_change_24h`, so its output never carries the `pool_name` and
`price_change_pct_24h` columns the bubble projection requires; composing
the two therefore raises the missing-columns error on every payload. -/
theorem C10_normalize_project_always_fails (pools : List JVal) :
    liquidity_vs_volume (pools_to_dataframe pools) =
      .error ("Missing columns: " ++
        String.intercalate ", " (missingColumns (pools_to_dataframe pools))) ∧
    "pool_name" ∈ missingColumns (pools_to_dataframe pools) ∧
    "price_change_pct_24h" ∈ missingColumns (pools_to_dataframe pools) := by
  cases pools with
  | nil => exact ⟨rfl, by decide, by decide⟩
  | cons p ps =>
    have hcols : (pools_to_dataframe (p :: ps)).columns = curatedColumns := by
      simpa using pools_to_dataframe_columns (p :: ps)
    have hmiss : missingColumns (pools_to_dataframe (p :: ps)) =
        ["pool_name", "price_change_pct_24h"] := by
      unfold missingColumns
      rw [hcols]
      decide
    refine ⟨?_, ?_, ?_⟩
    · simp [liquidity_vs_volume, hmiss]
    · rw [hmiss]; decide
    · rw [hmiss]; decide

/-- C6: a transport failure or non-success status makes `get_pools` fail
with the wrapping error that carries the underlying cause, and the leftover
trace shows exactly one request was issued — no retry; a successful GET
returns the body's `data` array, or the empty array when the key is
absent. -/
theorem C6_get_pools_transport (network : String) (limit page : Int) :
    (∀ (cause : String) (rest : List HttpOutcome),
       get_pools network limit page (.failure cause :: rest) =
         (.error ("API request failed: " ++ cause), rest)) ∧
    (∀ (fields : List (String × JVal)) (rest : List HttpOutcome)
        (xs : List JVal),
       fields.lookup "data" = some (.jArr xs) →
       get_pools network limit page (.success (.jObj fields) :: rest) =
         (.ok (.jArr xs), rest)) ∧
    (∀ (fields : List (String × JVal)) (rest : List HttpOutcome),
       fields.lookup "data" = none →
       get_pools network limit page (.success (.jObj fields) :: rest) =
         (.ok (.jArr []), rest)) := by
  refine ⟨fun cause rest => rfl, fun fields rest xs h => ?_, fun fields rest h => ?_⟩
  · simp [get_pools, _request, jsonGetData, h]
  · simp [get_pools, _request, jsonGetData, h]

/-- C6, witness: the three transport branches at concrete traces. -/
theorem C6_get_pools_transport_witness :
    (get_pools "ethereum" 100 1 [.failure "boom"] =
       (.error "API request failed: boom", [])) ∧
    (get_pools "ethereum" 100 1
         [.success (.jObj [("data", .jArr [samplePool])]), .failure "x"] =
       (.ok (.jArr [samplePool]), [.failure "x"])) ∧
    (get_pools "ethereum" 100 1 [.success (.jObj [])] = (.ok (.jArr []), [])) :=
  ⟨(C6_get_pools_transport "ethereum" 100 1).1 "boom" [],
   (C6_get_pools_transport "ethereum" 100 1).2.1 _ _ _ rfl,
   (C6_get_pools_transport "ethereum" 100 1).2.2 _ _ rfl⟩

/-! ### clean_numeric: cell-level characterisation -/

/-- Coercion is idempotent on a cell: a coerced cell is a number or the
missing marker, and both are fixed points. -/
theorem toNumericCell_idem (v : Val) :
    toNumericCell (toNumericCell v) = toNumericCell v := by
  cases v with
  | vStr s => cases h : pyFloatOfString s <;> simp [toNumericCell, h]
  | vNum q => rfl
  | vNone => rfl

/-- Pointwise view of `applyAtCols`: position `j` is transformed exactly
when the `j`-th column label is `c`. -/
theorem applyAtCols_get? (c : String) (f : Val → Val) (ns : List String)
    (vs : List Val) (j : Nat) :
    (applyAtCols c f ns vs).get? j =
      (vs.get? j).map (fun v => if ns.get? j = some c then f v else v) := by
  induction vs generalizing ns j with
  | nil => cases ns <;> rfl
  | cons v vs ih =>
    cases ns with
    | nil => cases j <;> simp [applyAtCols]
    | cons n ns =>
      cases j with
      | zero => simp [applyAtCols]
      | succ j => simpa [applyAtCols] using ih ns j

theorem setCol_columns (df : DataFrame) (c : String) (f : Val → Val) :
    (setCol df c f).columns = df.columns := rfl

/-- Pointwise view of `setCol`. -/
theorem setCol_cell (df : DataFrame) (c : String) (f : Val → Val)
    (i j : Nat) :
    ((setCol df c f).rows.get? i).bind (fun r => r.get? j) =
      ((df.rows.get? i).bind (fun r => r.get? j)).map
        (fun v => if df.columns.get? j = some c then f v else v) := by
  show ((df.rows.map (applyAtCols c f df.columns)).get? i).bind
      (fun r => r.get? j) = _
  rw [List.get?_map]
  cases h : df.rows.get? i with
  | none => rfl
  | some r => exact applyAtCols_get? c f df.columns r j

/-- One `clean_numeric` step, unfolded. -/
theorem clean_numeric_cons (df : DataFrame) (c0 : String) (cols : List String) :
    clean_numeric df (c0 :: cols) =
      clean_numeric
        (if df.columns.contains c0 then setCol df c0 toNumericCell else df)
        cols := rfl

theorem clean_numeric_columns (df : DataFrame) (cols : List String) :
    (clean_numeric df cols).columns = df.columns := by
  induction cols generalizing df with
  | nil => rfl
  | cons c0 cols ih =>
    rw [clean_numeric_cons]
    by_cases h : df.columns.contains c0
    · rw [if_pos h, ih]; rfl
    · rw [if_neg h, ih]

theorem clean_numeric_index (df : DataFrame) (cols : List String) :
    (clean_numeric df cols).index = df.index := by
  induction cols generalizing df with
  | nil => rfl
  | cons c0 cols ih =>
    rw [clean_numeric_cons]
    by_cases h : df.columns.contains c0
    · rw [if_pos h, ih]; rfl
    · rw [if_neg h, ih]

theorem clean_numeric_rows_length (df : DataFrame) (cols : List String) :
    (clean_numeric df cols).rows.length = df.rows.length := by
  induction cols generalizing df with
  | nil => rfl
  | cons c0 cols ih =>
    rw [clean_numeric_cons]
    by_cases h : df.columns.contains c0
    · rw [if_pos h, ih]
      exact List.length_map _ _
    · rw [if_neg h, ih]

/-- A label absent by `contains` differs from every member label. -/
theorem ne_of_not_contains {xs : List String} {x y : String}
    (h : xs.contains x = false) (hy : y ∈ xs) : ¬ y = x := by
  intro he
  subst he
  have : xs.contains y = true := List.elem_iff.mpr hy
  rw [h] at this
  exact Bool.false_ne_true this

/-- `contains` over a cons whose head differs from the sought label. -/
theorem contains_cons_ne {c c0 : String} (cols : List String)
    (h : ¬ c = c0) : (c0 :: cols).contains c = cols.contains c := by
  show (c == c0 || cols.contains c) = cols.contains c
  rw [beq_eq_false_iff_ne.mpr h, Bool.false_or]

/-- The cell-level contract of `clean_numeric`: a cell is coerced exactly
when its column is among the requested names, and everything else is left
as it was. -/
theorem clean_numeric_cell (df : DataFrame) (cols : List String) (i j : Nat) :
    ((clean_numeric df cols).rows.get? i).bind (fun r => r.get? j) =
      ((df.rows.get? i).bind (fun r => r.get? j)).map
        (cleanCellAt cols (df.columns.get? j)) := by
  induction cols generalizing df with
  | nil =>
    show ((df.rows.get? i).bind fun r => r.get? j) = _
    cases hx : (df.rows.get? i).bind (fun r => r.get? j) with
    | none => rfl
    | some v => cases hj : df.columns.get? j <;> rfl
  | cons c0 cols ih =>
    rw [clean_numeric_cons]
    by_cases h : df.columns.contains c0
    · rw [if_pos h, ih (setCol df c0 toNumericCell)]
      rw [show (setCol df c0 toNumericCell).columns = df.columns from rfl]
      rw [setCol_cell, Option.map_map]
      cases hcell : (df.rows.get? i).bind (fun r => r.get? j) with
      | none => rfl
      | some v =>
        simp only [Option.map_some', Function.comp_apply]
        congr 1
        cases hj : df.columns.get? j with
        | none => rfl
        | some c =>
          by_cases hcc : c = c0
          · subst hcc
            rw [if_pos rfl]
            show (if cols.contains c = true then
                toNumericCell (toNumericCell v) else toNumericCell v) =
              if (c :: cols).contains c = true then toNumericCell v else v
            rw [show (c :: cols).contains c = true from by
              show (c == c || _) = true
              rw [beq_self_eq_true, Bool.true_or]]
            rw [if_pos rfl]
            by_cases h2 : cols.contains c
            · rw [if_pos h2, toNumericCell_idem]
            · rw [if_neg h2]
          · rw [if_neg (fun he : some c = some c0 =>
              hcc (Option.some.inj he))]
            show (if cols.contains c = true then toNumericCell v else v) =
              if (c0 :: cols).contains c = true then toNumericCell v else v
            rw [contains_cons_ne cols hcc]
    · rw [if_neg h, ih df]
      cases hcell : (df.rows.get? i).bind (fun r => r.get? j) with
      | none => rfl
      | some v =>
        simp only [Option.map_some']
        congr 1
        cases hj : df.columns.get? j with
        | none => rfl
        | some c =>
          have hc0 : ¬ c = c0 :=
            ne_of_not_contains (by rwa [Bool.not_eq_true] at h)
              (List.get?_mem hj)
          show (if cols.contains c = true then toNumericCell v else v) =
            if (c0 :: cols).contains c = true then toNumericCell v else v
          rw [contains_cons_ne cols hc0]

/-- Structure extensionality for frames. -/
theorem DataFrame.ext' {x y : DataFrame} (h1 : x.columns = y.columns)
    (h2 : x.index = y.index) (h3 : x.rows = y.rows) : x = y := by
  cases x
  cases y
  cases h1
  cases h2
  cases h3
  rfl

/-- Row lists agreeing in length and cellwise are equal. -/
theorem rows_ext {rs1 rs2 : List (List Val)} (hlen : rs1.length = rs2.length)
    (h : ∀ i j, (rs1.get? i).bind (fun r => r.get? j) =
      (rs2.get? i).bind (fun r => r.get? j)) : rs1 = rs2 := by
  apply List.ext_get?_iff.mpr
  intro i
  cases h1 : rs1.get? i with
  | none =>
    have h2 : rs2.length ≤ i := hlen ▸ List.get?_eq_none.mp h1
    exact (List.get?_eq_none.mpr h2).symm
  | some r1 =>
    cases h2 : rs2.get? i with
    | none =>
      have h3 : rs1.length ≤ i := hlen ▸ List.get?_eq_none.mp h2
      rw [List.get?_eq_none.mpr h3] at h1
      cases h1
    | some r2 =>
      congr 1
      apply List.ext_get?_iff.mpr
      intro j
      have hj := h i j
      rw [h1, h2] at hj
      exact hj

/-- The cellwise coercion is idempotent. -/
theorem cleanCellAt_idem (cols : List String) (name? : Option String)
    (v : Val) :
    cleanCellAt cols name? (cleanCellAt cols name? v) = cleanCellAt cols name? v := by
  cases name? with
  | none => rfl
  | some c =>
    unfold cleanCellAt
    by_cases h : cols.contains c = true
    · simp only [if_pos h]
      exact toNumericCell_idem v
    · simp only [if_neg h]

/-- C5, counterexample: `clean_numeric` writes the coerced columns back into
the caller's frame (`df[col] = ...`) and returns that same object, so after
the call the caller's table holds the coerced values; on a frame holding the
numeric string "100" the table after the call differs from the table that
was passed in. -/
theorem C5_in_place_update_counterexample :
    clean_numeric dfStrNum ["tvl_usd"] =
      { columns := ["tvl_usd"], index := [0], rows := [[.vNum 100]] } ∧
    clean_numeric dfStrNum ["tvl_usd"] ≠ dfStrNum := by
  constructor
  · decide
  · decide

/-- C5, amended: `clean_numeric` mutates the caller's table in place, so
after the call the caller's table is the returned frame: the column labels,
index and row count are unchanged, and a cell is coerced to numeric exactly
when its column was requested — everything else keeps its prior value. -/
theorem C5_clean_numeric_effect (df : DataFrame) (cols : List String) :
    (clean_numeric df cols).columns = df.columns ∧
    (clean_numeric df cols).index = df.index ∧
    (clean_numeric df cols).rows.length = df.rows.length ∧
    ∀ i j, ((clean_numeric df cols).rows.get? i).bind (fun r => r.get? j) =
      ((df.rows.get? i).bind (fun r => r.get? j)).map
        (cleanCellAt cols (df.columns.get? j)) :=
  ⟨clean_numeric_columns df cols, clean_numeric_index df cols,
   clean_numeric_rows_length df cols, clean_numeric_cell df cols⟩

/-- C7: `clean_numeric` is idempotent — a second pass over the same columns
changes nothing, because coercion is a fixed point on already-coerced
cells. -/
theorem C7_clean_numeric_idempotent (df : DataFrame) (cols : List String) :
    clean_numeric (clean_numeric df cols) cols = clean_numeric df cols := by
  have hcols := clean_numeric_columns df cols
  apply DataFrame.ext'
  · rw [clean_numeric_columns, hcols]
  · rw [clean_numeric_index, clean_numeric_index]
  · apply rows_ext (clean_numeric_rows_length _ _)
    intro i j
    rw [clean_numeric_cell, hcols, clean_numeric_cell, Option.map_map]
    cases hx : (df.rows.get? i).bind (fun r => r.get? j) with
    | none => rfl
    | some v =>
      simp only [Option.map_some', Function.comp_apply]
      rw [cleanCellAt_idem]

/-- The sorting stage: columns unchanged, rows a permutation of the input,
and the permuted rows pairwise ordered by the descending volume key. -/
theorem sort_values_desc_spec (df : DataFrame) (c : String)
    (hlen : df.index.length = df.rows.length) :
    (sort_values_desc df c).columns = df.columns ∧
    List.Perm (sort_values_desc df c).rows df.rows ∧
    (sort_values_desc df c).rows.Pairwise (fun r1 r2 =>
      volGEb (cellAt df.columns c r1) (cellAt df.columns c r2) = true) := by
  refine ⟨rfl, ?_, ?_⟩
  · have hperm :=
      (List.perm_insertionSort (rowGE df.columns c) (df.index.zip df.rows)).map
        Prod.snd
    rw [List.map_snd_zip _ _ (le_of_eq hlen.symm)] at hperm
    exact hperm
  · have hs :=
      List.sorted_insertionSort (rowGE df.columns c) (df.index.zip df.rows)
    exact List.Pairwise.map _ (fun p q hpq => hpq) hs

/-- Row-count bookkeeping extracted from well-formedness. -/
theorem WF_index_length {df : DataFrame} (hwf : WF df = true) :
    df.index.length = df.rows.length := by
  have h := (Bool.and_eq_true _ _).mp hwf
  exact beq_iff_eq.mp h.1

/-- C3: with the volume column present (and holding numeric-or-missing
values, the PoolTable invariant), `top_pools_by_volume` succeeds with the
rows reordered non-increasingly by that column, truncated to
`min n rowCount`, under a fresh sequential index; without the column it
fails with the schema error before any ranking. -/
theorem C3_top_pools_by_volume_spec :
    (∀ (df : DataFrame) (n : Nat), WF df = true →
       df.columns.contains "volume_usd_24h" = true →
       (∀ r ∈ df.rows, cellAt df.columns "volume_usd_24h" r = .vNone ∨
          ∃ q, cellAt df.columns "volume_usd_24h" r = .vNum q) →
       topOkSpec df n) ∧
    (∀ (df : DataFrame) (n : Nat),
       df.columns.contains "volume_usd_24h" = false →
       top_pools_by_volume df n =
         .error "DataFrame must contain \x27volume_usd_24h\x27 column") := by
  constructor
  · intro df n hwf hcol _hnum
    have hlen := WF_index_length hwf
    obtain ⟨hcols, hperm, hsorted⟩ :=
      sort_values_desc_spec df "volume_usd_24h" hlen
    have hslen : (sort_values_desc df "volume_usd_24h").rows.length =
        df.rows.length := hperm.length_eq
    refine ⟨reset_index (headDF (sort_values_desc df "volume_usd_24h") n),
      ?_, hcols, ?_, ?_,
      ⟨(sort_values_desc df "volume_usd_24h").rows, hperm, rfl, hsorted⟩⟩
    · rw [top_pools_by_volume, if_pos hcol]
    · show ((sort_values_desc df "volume_usd_24h").rows.take n).length = _
      rw [List.length_take, hslen]
    · show List.range
        ((sort_values_desc df "volume_usd_24h").rows.take n).length = _
      rw [List.length_take, hslen]
  · intro df n h
    rw [top_pools_by_volume, if_neg (fun hc => Bool.false_ne_true (h ▸ hc))]

/-- C3, witness: the success branch on a concrete two-row table and the
schema-error branch on a concrete volume-less table. -/
theorem C3_top_pools_by_volume_witness :
    topOkSpec dfVol 1 ∧
    top_pools_by_volume dfNoVol 3 =
      .error "DataFrame must contain \x27volume_usd_24h\x27 column" :=
  ⟨C3_top_pools_by_volume_spec.1 dfVol 1 rfl rfl (by
      intro r hr
      fin_cases hr
      · exact .inr ⟨1, rfl⟩
      · exact .inr ⟨5, rfl⟩),
   C3_top_pools_by_volume_spec.2 dfNoVol 3 rfl⟩

/-- C9: when the three chart columns are present (the volume column holding
numeric-or-missing values, the PoolTable invariant under which pandas can
sort without raising) and `n` exceeds the row count, `bar_top_volume`
succeeds and the chart is built from all available rows. -/
theorem C9_bar_top_volume_all_rows (df : DataFrame) (n : Nat)
    (hwf : WF df = true)
    (hpair : df.columns.contains "pair" = true)
    (hvol : df.columns.contains "volume_usd_24h" = true)
    (htvl : df.columns.contains "tvl_usd" = true)
    (_hnum : ∀ r ∈ df.rows,
      cellAt df.columns "volume_usd_24h" r = .vNone ∨
      ∃ q, cellAt df.columns "volume_usd_24h" r = .vNum q)
    (hn : df.rows.length < n) : barOkSpec df n := by
  have hlen := WF_index_length hwf
  obtain ⟨hcols, hperm, hsorted⟩ :=
    sort_values_desc_spec df "volume_usd_24h" hlen
  have hslen : (sort_values_desc df "volume_usd_24h").rows.length =
      df.rows.length := hperm.length_eq
  have htake : (sort_values_desc df "volume_usd_24h").rows.take n =
      (sort_values_desc df "volume_usd_24h").rows :=
    List.take_all_of_le (by rw [hslen]; exact le_of_lt hn)
  have hband : (df.columns.contains "pair" &&
      df.columns.contains "tvl_usd") = true := by rw [hpair, htvl]; rfl
  refine ⟨{ x := colValues (headDF (sort_values_desc df "volume_usd_24h") n) "pair"
            y := colValues (headDF (sort_values_desc df "volume_usd_24h") n)
              "volume_usd_24h"
            text := colValues (headDF (sort_values_desc df "volume_usd_24h") n)
              "tvl_usd"
            title := "Top " ++ toString n ++ " Pools by 24‑Hour Volume"
            xaxisTickangle := -35
            xaxisTitle := "Pool (Token0‑Token1)" }, ?_, ?_, ?_, ?_,
    ⟨(sort_values_desc df "volume_usd_24h").rows, hperm, ?_, ?_, ?_⟩⟩
  · rw [bar_top_volume, if_pos hvol, if_pos hband]
  · show (((sort_values_desc df "volume_usd_24h").rows.take n).map
      (cellAt df.columns "pair")).length = _
    rw [htake, List.length_map, hslen]
  · show (((sort_values_desc df "volume_usd_24h").rows.take n).map
      (cellAt df.columns "volume_usd_24h")).length = _
    rw [htake, List.length_map, hslen]
  · show (((sort_values_desc df "volume_usd_24h").rows.take n).map
      (cellAt df.columns "tvl_usd")).length = _
    rw [htake, List.length_map, hslen]
  · show ((sort_values_desc df "volume_usd_24h").rows.take n).map
      (cellAt df.columns "pair") = _
    rw [htake]
  · show ((sort_values_desc df "volume_usd_24h").rows.take n).map
      (cellAt df.columns "volume_usd_24h") = _
    rw [htake]
  · show ((sort_values_desc df "volume_usd_24h").rows.take n).map
      (cellAt df.columns "tvl_usd") = _
    rw [htake]

/-- C9, witness: a one-row table charted with `n = 2`. -/
theorem C9_bar_top_volume_all_rows_witness : barOkSpec dfBar 2 :=
  C9_bar_top_volume_all_rows dfBar 2 rfl rfl rfl rfl
    (by
      intro r hr
      fin_cases hr
      exact .inr ⟨2, rfl⟩)
    (by decide)

/-! ### volatility -/

/-- Unfolding `volatility` on a non-empty series. -/
theorem volatility_ne_empty (xs : List ℚ) (w : Nat) (hne : xs ≠ []) :
    volatility xs w = (List.range xs.length).map (fun i =>
      if i + 1 < w || w ≤ 1 then none
      else some (sampleVar (windowAt xs w i))) := by
  unfold volatility
  rw [if_neg]
  intro h
  exact hne (List.isEmpty_iff.mp h)

theorem volatility_length (xs : List ℚ) (w : Nat) (hne : xs ≠ []) :
    (volatility xs w).length = xs.length := by
  rw [volatility_ne_empty xs w hne, List.length_map, List.length_range]

/-- Positions with an incomplete trailing window are missing. -/
theorem volatility_entry_none (xs : List ℚ) (w i : Nat) (hne : xs ≠ [])
    (hi : i < xs.length) (hlt : i + 1 < w) :
    (volatility xs w).get? i = some none := by
  rw [volatility_ne_empty xs w hne, List.get?_map, List.get?_range hi]
  show some (if i + 1 < w || w ≤ 1 then none
    else some (sampleVar (windowAt xs w i))) = some none
  rw [if_pos]
  simp [hlt]

/-- Positions with a complete window of size at least two hold the sample
statistic of their trailing window. -/
theorem volatility_entry (xs : List ℚ) (w i : Nat) (hne : xs ≠ [])
    (hi : i < xs.length) (h2 : 2 ≤ w) (hwi : w ≤ i + 1) :
    (volatility xs w).get? i = some (some (sampleVar (windowAt xs w i))) := by
  rw [volatility_ne_empty xs w hne, List.get?_map, List.get?_range hi]
  show some (if i + 1 < w || w ≤ 1 then none
    else some (sampleVar (windowAt xs w i))) = _
  rw [if_neg]
  simp only [Bool.or_eq_true, decide_eq_true_eq, not_or, not_lt, not_le]
  exact ⟨hwi, by omega⟩

/-- A complete trailing window has exactly `w` elements. -/
theorem windowAt_length (xs : List ℚ) (w i : Nat) (hi : i < xs.length)
    (hwi : w ≤ i + 1) : (windowAt xs w i).length = w := by
  unfold windowAt
  rw [List.length_drop, List.length_take]
  omega

/-- The sample statistic of a constant list vanishes. -/
theorem sampleVar_replicate (n : Nat) (c : ℚ) :
    sampleVar (List.replicate n c) = 0 := by
  cases n with
  | zero => simp [sampleVar]
  | succ m =>
    show (((List.replicate (m + 1) c).map
        (fun x => (x - (List.replicate (m + 1) c).sum /
          ((List.replicate (m + 1) c).length : ℚ)) ^ 2)).sum) /
        (((List.replicate (m + 1) c).length : ℚ) - 1) = 0
    have hm : (List.replicate (m + 1) c).sum /
        ((List.replicate (m + 1) c).length : ℚ) = c := by
      rw [List.sum_replicate, List.length_replicate, nsmul_eq_mul]
      exact mul_div_cancel_left₀ c (by positivity)
    rw [hm]
    simp

/-- C8: `volatility` returns an empty series on empty input; on non-empty
input it has one entry per position, the first `w - 1` positions missing,
and each complete window of size `w ≥ 2` holds the sample deviation of its
trailing `w` values — recorded as its exact square `sampleVar`, equal to the
mean-centred sum of squares over `w - 1`; in particular on 24 identical
values with window 24 the last entry is `0`, whose square root (the
deviation the source reports) is `0.0`. -/
theorem C8_volatility_spec :
    (∀ w, volatility [] w = []) ∧
    (∀ (xs : List ℚ) (w : Nat), xs ≠ [] → 1 ≤ w →
       (volatility xs w).length = xs.length ∧
       (∀ i, i < xs.length → i + 1 < w →
          (volatility xs w).get? i = some none) ∧
       (2 ≤ w → ∀ i, i < xs.length → w ≤ i + 1 →
          (volatility xs w).get? i =
            some (some (sampleVar (windowAt xs w i))) ∧
          (windowAt xs w i).length = w ∧
          sampleVar (windowAt xs w i) =
            ((windowAt xs w i).map
              (fun x => (x - (windowAt xs w i).sum / (w : ℚ)) ^ 2)).sum /
              ((w : ℚ) - 1))) ∧
    (∀ c : ℚ,
       (volatility (List.replicate 24 c) 24).get? 23 = some (some 0) ∧
       Real.sqrt 0 = 0) := by
  refine ⟨fun w => rfl, ?_, ?_⟩
  · intro xs w hne hw1
    refine ⟨volatility_length xs w hne,
      fun i hi hlt => volatility_entry_none xs w i hne hi hlt, ?_⟩
    intro h2 i hi hwi
    have hlen := windowAt_length xs w i hi hwi
    refine ⟨volatility_entry xs w i hne hi h2 hwi, hlen, ?_⟩
    show (((windowAt xs w i).map
        (fun x => (x - (windowAt xs w i).sum /
          ((windowAt xs w i).length : ℚ)) ^ 2)).sum) /
        (((windowAt xs w i).length : ℚ) - 1) = _
    rw [hlen]
  · intro c
    have hne : List.replicate 24 c ≠ [] := by simp
    have hwin : windowAt (List.replicate 24 c) 24 23 = List.replicate 24 c := by
      show (List.take 24 (List.replicate 24 c)).drop 0 = List.replicate 24 c
      rw [List.drop_zero, List.take_replicate]
      norm_num
    have h1 := volatility_entry (List.replicate 24 c) 24 23 hne
      (by simp) (by norm_num) (by norm_num)
    rw [hwin, sampleVar_replicate] at h1
    exact ⟨h1, Real.sqrt_zero⟩

/-- C8, witness: the general clause applied to a concrete three-value
series with window 2. -/
theorem C8_volatility_spec_witness :
    (volatility [1, 3, 5] 2).length = 3 ∧
    (volatility [1, 3, 5] 2).get? 0 = some none ∧
    (volatility [1, 3, 5] 2).get? 1 =
      some (some (sampleVar (windowAt [1, 3, 5] 2 1))) :=
  ⟨(C8_volatility_spec.2.1 [1, 3, 5] 2 (by decide) (by decide)).1,
   (C8_volatility_spec.2.1 [1, 3, 5] 2 (by decide) (by decide)).2.1 0
     (by decide) (by decide),
   ((C8_volatility_spec.2.1 [1, 3, 5] 2 (by decide) (by decide)).2.2
     (by decide) 1 (by decide) (by decide)).1⟩

end DexRay
